import Mathlib

/-!
Verification model of the db-train-info crate.

The Rust sources are embedded shallowly:
* machine integers (`i64`, `i32`) become `Int`; the claims never exercise
  wrap-around of these fields, and where a bounds check matters
  (`str::parse::<i64>`) the `i64` range test is modelled explicitly;
* `f32`/`f64` values become `ℚ`; every float computation the claims touch
  (`distance_to_km`, the end-to-end scenario, the spec's examples) only
  involves values and quotients that are exactly representable in `f64`,
  so the rational value coincides with the IEEE one;
* fallible code (`unwrap` panics inside `delay_string_to_duration`)
  returns `Option`: `none` models a panic;
* `time::Duration::minutes(n)` of the external `time` crate is modelled
  by the signed minute count `n : Int` itself;
* `time::at`/`time::at_utc` of the external `time` crate attach a
  timezone to a `Timespec`; the repository's own computation is the
  construction of the `Timespec`, which the model returns.
-/

namespace DbTrainInfo

/-- The GPS coordinates of a train station (struct `Coordinates`, shared by
`src/lib.rs` and `src/trip_info/mod.rs`). The `f32` fields are modelled as `ℚ`. -/
structure Coordinates where
  latitude : ℚ
  longitude : ℚ
deriving DecidableEq

/-- References the last and the next stop of the train
(struct `TrainVicinity` in `src/trip_info/mod.rs`). -/
structure TrainVicinity where
  scheduledNext : String
  actualNext : String
  actualLast : String
  actualLastStarted : String
  finalStationEvaNr : String
  finalStationName : String
deriving DecidableEq

/-- A train station in the trajectory of a train
(struct `StationInfo` in `src/trip_info/mod.rs`). -/
structure StationInfo where
  evaNr : String
  name : String
  geocoordinates : Coordinates
deriving DecidableEq

/-- Schedules and delays in the trajectory of a train
(struct `TimeInfo` in `src/trip_info/mod.rs`). Timestamps are epoch
milliseconds (`i64`, modelled as `Int`). -/
structure TimeInfo where
  scheduledArrivalTime : Option Int
  actualArrivalTime : Option Int
  arrivalDelay : String
  scheduledDepartureTime : Option Int
  actualDepartureTime : Option Int
  departureDelay : String
deriving DecidableEq

/-- The track/platform at a specific station
(struct `TrackInfo` in `src/trip_info/mod.rs`). -/
structure TrackInfo where
  scheduled : String
  actual : String
deriving DecidableEq

/-- Miscellaneous information about a specific train station
(struct `MiscInfo` in `src/trip_info/mod.rs`). Distances are meters. -/
structure MiscInfo where
  status : Int
  passed : Bool
  distance : Int
  distanceFromStart : Int
deriving DecidableEq

/-- A reason for a delay (struct `DelayReason` in `src/trip_info/mod.rs`). -/
structure DelayReason where
  code : String
  text : String
deriving DecidableEq

/-- A stop in the trajectory of a train (struct `Stop` in `src/trip_info/mod.rs`). -/
structure Stop where
  station : StationInfo
  timetable : TimeInfo
  track : TrackInfo
  info : MiscInfo
  delayReasons : Option (List DelayReason)
deriving DecidableEq

/-- The trip of a train (struct `Trip` in `src/trip_info/mod.rs`). -/
structure Trip where
  tripDate : String
  trainType : String
  vzn : String
  actualPosition : Int
  distanceFromLastStop : Int
  totalDistance : Int
  stopInfo : TrainVicinity
  stops : List Stop
deriving DecidableEq

/-- A `time::Timespec` of the external `time` crate: seconds and nanoseconds. -/
structure Timespec where
  sec : Int
  nsec : Int
deriving DecidableEq

/-! ### Model of `str::parse::<i64>` (Rust core `i64::from_str`)

Rust's integer parser accepts an optional leading `+` or `-` sign followed by
one or more ASCII decimal digits, and fails on an empty string, on any
non-digit character, and when the value falls outside the `i64` range. -/

/-- Numeric value of an ASCII decimal digit, as used by Rust's integer parser
(`char::to_digit` with radix 10); `none` for a non-digit. -/
def digit_to_nat (c : Char) : Option Nat :=
  if '0' ≤ c ∧ c ≤ '9' then some (c.toNat - 48) else none

/-- Left-to-right accumulation of decimal digits, failing on the first
non-digit character. -/
def digits_acc : Nat → List Char → Option Nat
  | acc, [] => some acc
  | acc, c :: rest =>
    match digit_to_nat c with
    | some d => digits_acc (acc * 10 + d) rest
    | none => none

/-- Value of a non-empty all-digit character sequence; `none` when the
sequence is empty or contains a non-digit. -/
def digits_value (s : List Char) : Option Nat :=
  match s with
  | [] => none
  | _ :: _ => digits_acc 0 s

/-- The largest `i64` value, `2 ^ 63 - 1`. -/
def i64_max : Int := 2 ^ 63 - 1

/-- Model of `str::parse::<i64>()`: optional sign, then digits, with the
`i64` range check; `none` models `Err`. -/
def i64_parse (s : List Char) : Option Int :=
  match s with
  | [] => none
  | c :: rest =>
    if c = '+' then
      match digits_value rest with
      | some n => if (n : Int) ≤ i64_max then some (n : Int) else none
      | none => none
    else if c = '-' then
      match digits_value rest with
      | some n => if (n : Int) ≤ 2 ^ 63 then some (-(n : Int)) else none
      | none => none
    else
      match digits_value s with
      | some n => if (n : Int) ≤ i64_max then some (n : Int) else none
      | none => none

/-- Reference decimal value of a digit string, used to state properties of
the parser: fold each character in as `acc * 10 + digit`. -/
def decimal_value (ds : List Char) : Nat :=
  ds.foldl (fun a c => a * 10 + (c.toNat - 48)) 0

/-! ### `impl TimeInfo` (`src/trip_info/time_info.rs`) -/

/-- Body of `TimeInfo::delay_string_to_duration`. The Rust function returns
`Duration` and panics (two `unwrap` calls) when byte re-decoding or integer
parsing fails; the model returns the signed minute count, with `none` for a
panic. Faithful to the source: an empty string yields zero; a string starting
with `+` has its first byte stripped and the rest parsed as the positive
minute count; ANY other non-empty string likewise has its first byte stripped
— whatever that byte is — and the rest parsed and negated. Slicing
`as_bytes()[1..]` cuts inside the first character when it is not ASCII
(code point at least 128, hence multi-byte in UTF-8), making
`str::from_utf8` fail, i.e. a panic. -/
def delay_chars_to_duration : List Char → Option Int
  | [] => some 0
  | c :: rest =>
    if c = '+' then
      (i64_parse rest).map (fun n => n)
    else if c.toNat < 128 then
      (i64_parse rest).map (fun n => -n)
    else
      none

/-- Model of `TimeInfo::delay_string_to_duration`, as a function on `String`:
the branching of `delay_chars_to_duration` applied to the string's characters. -/
def TimeInfo.delay_string_to_duration (delay_string : String) : Option Int :=
  delay_chars_to_duration delay_string.data

/-- Model of `TimeInfo::arrival_delay`. -/
def TimeInfo.arrival_delay (t : TimeInfo) : Option Int :=
  TimeInfo.delay_string_to_duration t.arrivalDelay

/-- Model of `TimeInfo::departure_delay`. -/
def TimeInfo.departure_delay (t : TimeInfo) : Option Int :=
  TimeInfo.delay_string_to_duration t.departureDelay

/-- Model of `TimeInfo::timestamp_to_tm`: the `Timespec` built from an epoch
millisecond timestamp. Rust's `i64` division and remainder truncate toward
zero, which is `Int.tdiv` and `Int.tmod`; the `as i32` cast of the remainder
is lossless since the magnitude is below 1000. -/
def TimeInfo.timestamp_to_tm (timestamp : Int) : Timespec :=
  { sec := Int.tdiv timestamp 1000
    nsec := Int.tmod timestamp 1000 * 1000000 }

/-! ### `impl Trip` (`src/trip_info/trip.rs`) -/

/-- The `for` loop inside `Trip::get_stop`: scan the stop list in order and
return the first stop whose `station.evaNr` equals the query. -/
def get_stop_loop : List Stop → String → Option Stop
  | [], _ => none
  | stop :: rest, eva_nr =>
    if stop.station.evaNr = eva_nr then some stop else get_stop_loop rest eva_nr

/-- Model of `Trip::get_stop`: linear scan over `self.stops`. -/
def Trip.get_stop (t : Trip) (eva_nr : String) : Option Stop :=
  get_stop_loop t.stops eva_nr

/-- Model of `Trip::next_stop`: lookup of `stopInfo.actualNext`. -/
def Trip.next_stop (t : Trip) : Option Stop :=
  t.get_stop t.stopInfo.actualNext

/-- Model of `Trip::previous_stop`: lookup of `stopInfo.actualLast`. -/
def Trip.previous_stop (t : Trip) : Option Stop :=
  t.get_stop t.stopInfo.actualLast

/-- Model of `Trip::distance_to_km`: `distance as f64 / 1000f64`. Both the
`i64` to `f64` conversion and the division are modelled exactly in `ℚ`. -/
def Trip.distance_to_km (distance : Int) : ℚ :=
  (distance : ℚ) / 1000

/-- Model of `Trip::distance_to_previous_stop`. -/
def Trip.distance_to_previous_stop (t : Trip) : ℚ :=
  Trip.distance_to_km t.distanceFromLastStop

/-- Model of `Trip::distance_to_next_stop`. -/
def Trip.distance_to_next_stop (t : Trip) : Option ℚ :=
  match t.next_stop with
  | some stop => some (Trip.distance_to_km stop.info.distance - t.distance_to_previous_stop)
  | none => none

/-- Model of `Trip::distance_between_adjacent_stops`. -/
def Trip.distance_between_adjacent_stops (t : Trip) : Option ℚ :=
  match t.next_stop with
  | some stop => some (Trip.distance_to_km stop.info.distance)
  | none => none

/-- Model of `Trip::total_distance`. -/
def Trip.total_distance (t : Trip) : ℚ :=
  Trip.distance_to_km t.totalDistance

/-- Model of `Trip::train_identifier`: the formatted string
produced from the train type and number. -/
def Trip.train_identifier (t : Trip) : String :=
  t.trainType ++ " " ++ t.vzn

/-- Model of `Trip::origin`: `stops[0]` when `stops.len() > 0`, else `None`. -/
def Trip.origin (t : Trip) : Option Stop :=
  if h : 0 < t.stops.length then some (t.stops.get ⟨0, h⟩) else none

/-- Model of `Trip::destination`: lookup of `stopInfo.finalStationEvaNr`. -/
def Trip.destination (t : Trip) : Option Stop :=
  t.get_stop t.stopInfo.finalStationEvaNr

/-! ### `Status` (`src/status.rs`, with the `src/lib.rs` revision sharing the
same fields and `Display` structure) -/

/-- The current state of the train (struct `Status`). -/
structure Status where
  speed : ℚ
  latitude : ℚ
  longitude : ℚ
  serverTime : Int
deriving DecidableEq

/-- Model of `Status::server_time`: the `Timespec` built from the epoch
millisecond server time with Rust's truncating `i64` division and remainder. -/
def Status.server_time (s : Status) : Timespec :=
  { sec := Int.tdiv s.serverTime 1000
    nsec := Int.tmod s.serverTime 1000 * 1000000 }

/-- Model of `impl fmt::Display for Status`. The numeric fields are rendered
with fixed format specifiers in the source; the model abstracts the numeral
text as `toString` of the rational field, which preserves the structure the
claim is about. The outcome of `time::strftime` (external `time` crate) is
passed in as a parameter: `some dt` for `Ok(dt)`, `none` for `Err(_)`. Each
branch mirrors one of the two `write!` calls of the source; the function is
total — the formatting itself never produces an error. -/
def Status.fmt (s : Status) (strftime_result : Option String) : String :=
  match strftime_result with
  | some dt =>
      "Speed: " ++ toString s.speed ++ " km/h; Lat/Long: " ++ toString s.latitude
        ++ "," ++ toString s.longitude ++ "; Time: " ++ dt
  | none =>
      "Speed: " ++ toString s.speed ++ " km/h; Lat/Long: " ++ toString s.latitude
        ++ "," ++ toString s.longitude

/-! ### The flat-file revision (`src/trip_info.rs`)

The repository carries a second, older revision of the trip model in the
single file `src/trip_info.rs`, with its own copies of the structs and of
`impl Trip`. It is embedded separately here, in its own namespace, so that
the two revisions can be compared. Its `Stop.delayReasons` field is typed
`Option<String>` (the modular revision uses `Option<Vec<DelayReason>>`). -/

namespace TripInfoRs

/-- Struct `TrainVicinity` of `src/trip_info.rs`. -/
structure TrainVicinity where
  scheduledNext : String
  actualNext : String
  actualLast : String
  actualLastStarted : String
  finalStationEvaNr : String
  finalStationName : String
deriving DecidableEq

/-- Struct `Coordinates` of `src/trip_info.rs`. -/
structure Coordinates where
  latitude : ℚ
  longitude : ℚ
deriving DecidableEq

/-- Struct `StationInfo` of `src/trip_info.rs`. -/
structure StationInfo where
  evaNr : String
  name : String
  geocoordinates : Coordinates
deriving DecidableEq

/-- Struct `TimeInfo` of `src/trip_info.rs`. -/
structure TimeInfo where
  scheduledArrivalTime : Option Int
  actualArrivalTime : Option Int
  arrivalDelay : String
  scheduledDepartureTime : Option Int
  actualDepartureTime : Option Int
  departureDelay : String
deriving DecidableEq

/-- Struct `TrackInfo` of `src/trip_info.rs`. -/
structure TrackInfo where
  scheduled : String
  actual : String
deriving DecidableEq

/-- Struct `MiscInfo` of `src/trip_info.rs`. -/
structure MiscInfo where
  status : Int
  passed : Bool
  distance : Int
  distanceFromStart : Int
deriving DecidableEq

/-- Struct `Stop` of `src/trip_info.rs`; `delayReasons` is an optional string
in this revision. -/
structure Stop where
  station : StationInfo
  timetable : TimeInfo
  track : TrackInfo
  info : MiscInfo
  delayReasons : Option String
deriving DecidableEq

/-- Struct `Trip` of `src/trip_info.rs`. -/
structure Trip where
  tripDate : String
  trainType : String
  vzn : String
  actualPosition : Int
  distanceFromLastStop : Int
  totalDistance : Int
  stopInfo : TrainVicinity
  stops : List Stop
deriving DecidableEq

/-- The `for` loop inside the flat revision's `Trip::get_stop`. -/
def get_stop_loop : List Stop → String → Option Stop
  | [], _ => none
  | stop :: rest, eva_nr =>
    if stop.station.evaNr = eva_nr then some stop else get_stop_loop rest eva_nr

/-- Flat revision of `Trip::get_stop` (`src/trip_info.rs`). -/
def Trip.get_stop (t : Trip) (eva_nr : String) : Option Stop :=
  get_stop_loop t.stops eva_nr

/-- Flat revision of `Trip::next_stop` (`src/trip_info.rs`). -/
def Trip.next_stop (t : Trip) : Option Stop :=
  t.get_stop t.stopInfo.actualNext

/-- Flat revision of `Trip::previous_stop` (`src/trip_info.rs`). -/
def Trip.previous_stop (t : Trip) : Option Stop :=
  t.get_stop t.stopInfo.actualLast

/-- Flat revision of `Trip::distance_to_km` (`src/trip_info.rs`). -/
def Trip.distance_to_km (distance : Int) : ℚ :=
  (distance : ℚ) / 1000

/-- Flat revision of `Trip::distance_to_previous_stop` (`src/trip_info.rs`). -/
def Trip.distance_to_previous_stop (t : Trip) : ℚ :=
  Trip.distance_to_km t.distanceFromLastStop

/-- Flat revision of `Trip::distance_to_next_stop` (`src/trip_info.rs`). -/
def Trip.distance_to_next_stop (t : Trip) : Option ℚ :=
  match t.next_stop with
  | some stop => some (Trip.distance_to_km stop.info.distance - t.distance_to_previous_stop)
  | none => none

/-- Flat revision of `Trip::distance_between_adjacent_stops` (`src/trip_info.rs`). -/
def Trip.distance_between_adjacent_stops (t : Trip) : Option ℚ :=
  match t.next_stop with
  | some stop => some (Trip.distance_to_km stop.info.distance)
  | none => none

/-- Flat revision of `Trip::train_identifier` (`src/trip_info.rs`). -/
def Trip.train_identifier (t : Trip) : String :=
  t.trainType ++ " " ++ t.vzn

end TripInfoRs

/-! ### Correspondence between the two revisions

Field-by-field conversions from the modular revision's records to the
flat-file revision's records. The only field without a counterpart is
`Stop.delayReasons`, which the flat revision types as an optional string and
the modular revision as an optional list of `DelayReason`; none of the
compared queries reads it, and the conversion drops it. -/

/-- Conversion of coordinates to the flat revision. -/
def coordinates_to_rs (c : Coordinates) : TripInfoRs.Coordinates :=
  ⟨c.latitude, c.longitude⟩

/-- Conversion of station information to the flat revision. -/
def station_info_to_rs (s : StationInfo) : TripInfoRs.StationInfo :=
  ⟨s.evaNr, s.name, coordinates_to_rs s.geocoordinates⟩

/-- Conversion of timetable information to the flat revision. -/
def time_info_to_rs (t : TimeInfo) : TripInfoRs.TimeInfo :=
  ⟨t.scheduledArrivalTime, t.actualArrivalTime, t.arrivalDelay,
    t.scheduledDepartureTime, t.actualDepartureTime, t.departureDelay⟩

/-- Conversion of track information to the flat revision. -/
def track_info_to_rs (t : TrackInfo) : TripInfoRs.TrackInfo :=
  ⟨t.scheduled, t.actual⟩

/-- Conversion of miscellaneous stop information to the flat revision. -/
def misc_info_to_rs (m : MiscInfo) : TripInfoRs.MiscInfo :=
  ⟨m.status, m.passed, m.distance, m.distanceFromStart⟩

/-- Conversion of a stop to the flat revision (dropping `delayReasons`,
whose type differs between the revisions). -/
def stop_to_rs (s : Stop) : TripInfoRs.Stop :=
  ⟨station_info_to_rs s.station, time_info_to_rs s.timetable,
    track_info_to_rs s.track, misc_info_to_rs s.info, none⟩

/-- Conversion of the vicinity record to the flat revision. -/
def vicinity_to_rs (v : TrainVicinity) : TripInfoRs.TrainVicinity :=
  ⟨v.scheduledNext, v.actualNext, v.actualLast, v.actualLastStarted,
    v.finalStationEvaNr, v.finalStationName⟩

/-- Conversion of a trip to the flat revision: all shared fields are copied
and the stops are converted elementwise. -/
def trip_to_rs (t : Trip) : TripInfoRs.Trip :=
  ⟨t.tripDate, t.trainType, t.vzn, t.actualPosition, t.distanceFromLastStop,
    t.totalDistance, vicinity_to_rs t.stopInfo, t.stops.map stop_to_rs⟩

/-! ### Concrete example values

These realize the spec's end-to-end scenario: two stops `S1` and `S2`,
the second 5000 m past the first, the train 2000 m past `S1`, heading
for `S2`, which is also the final station. -/

/-- A timetable record with no timestamps and empty delay strings. -/
def time_info_blank : TimeInfo :=
  ⟨none, none, "", none, none, ""⟩

/-- The first scenario stop, `S1`, at the start of the route. -/
def stop_s1 : Stop :=
  ⟨⟨"S1", "Station One", ⟨0, 0⟩⟩, time_info_blank, ⟨"1", "1"⟩, ⟨0, true, 0, 0⟩, none⟩

/-- The second scenario stop, `S2`, 5000 m past `S1`. -/
def stop_s2 : Stop :=
  ⟨⟨"S2", "Station Two", ⟨0, 0⟩⟩, time_info_blank, ⟨"2", "2"⟩, ⟨0, false, 5000, 5000⟩, none⟩

/-- The scenario trip: stops `[S1, S2]`, next stop `S2`, last stop `S1`,
2000 m travelled since the last stop. -/
def trip_scenario : Trip :=
  ⟨"2016-01-01", "ICE", "123", 0, 2000, 5000,
    ⟨"S2", "S2", "S1", "S2", "S2", "Station Two"⟩, [stop_s1, stop_s2]⟩

/-- A trip with an empty stop sequence. -/
def trip_empty : Trip :=
  ⟨"2016-01-01", "ICE", "123", 0, 0, 0,
    ⟨"S2", "S2", "S1", "S2", "S2", "Station Two"⟩, []⟩

/-- An example status snapshot: 250 km/h at latitude 50, longitude 8,
server time 1.5e12 ms after the epoch. -/
def status_example : Status :=
  ⟨250, 50, 8, 1500000000000⟩

/-! ### Helper lemmas -/

/-- Accumulating over an all-digit character list never fails and computes
the decimal left fold. -/
lemma digits_acc_all_digits (ds : List Char) :
    ∀ acc : Nat, (∀ c ∈ ds, '0' ≤ c ∧ c ≤ '9') →
      digits_acc acc ds = some (ds.foldl (fun a c => a * 10 + (c.toNat - 48)) acc) := by
  induction ds with
  | nil => intro acc _; rfl
  | cons c rest ih =>
    intro acc h
    have hc := h c (List.mem_cons_self c rest)
    have hd : digit_to_nat c = some (c.toNat - 48) := by
      unfold digit_to_nat; rw [if_pos hc]
    simp only [digits_acc, hd, List.foldl_cons]
    exact ih _ (fun d hdm => h d (List.mem_cons_of_mem c hdm))

/-- A non-empty all-digit character list has the decimal value computed by
`decimal_value`. -/
lemma digits_value_all_digits (ds : List Char) (h1 : ds ≠ [])
    (h2 : ∀ c ∈ ds, '0' ≤ c ∧ c ≤ '9') :
    digits_value ds = some (decimal_value ds) := by
  cases ds with
  | nil => exact absurd rfl h1
  | cons c rest =>
    show digits_acc 0 (c :: rest) = _
    rw [digits_acc_all_digits _ 0 h2]; rfl

/-- An ASCII digit is not the plus sign. -/
lemma digit_ne_plus {c : Char} (h : '0' ≤ c) : ¬c = '+' := by
  intro e; subst e; exact absurd h (by decide)

/-- An ASCII digit is not the minus sign. -/
lemma digit_ne_minus {c : Char} (h : '0' ≤ c) : ¬c = '-' := by
  intro e; subst e; exact absurd h (by decide)

/-- An ASCII digit is a single UTF-8 byte. -/
lemma digit_toNat_lt {c : Char} (h : c ≤ '9') : c.toNat < 128 := by
  have h4 : c.toNat ≤ 57 := by
    simpa [Char.le_def, UInt32.le_def, BitVec.le_def, Char.toNat, UInt32.toNat] using h
  omega

/-- Parsing a non-empty all-digit list within the `i64` range succeeds with
the decimal value. -/
lemma i64_parse_all_digits (ds : List Char) (h1 : ds ≠ [])
    (h2 : ∀ c ∈ ds, '0' ≤ c ∧ c ≤ '9')
    (h3 : (decimal_value ds : ℤ) ≤ i64_max) :
    i64_parse ds = some ((decimal_value ds : ℤ)) := by
  cases ds with
  | nil => exact absurd rfl h1
  | cons c rest =>
    have hc := h2 c (List.mem_cons_self c rest)
    simp only [i64_parse, if_neg (digit_ne_plus hc.1), if_neg (digit_ne_minus hc.1)]
    rw [digits_value_all_digits _ (by simp) h2]
    simp only [if_pos h3]

/-- Delay parsing of a plus sign followed by in-range digits yields the
positive minute count. -/
lemma delay_chars_plus (ds : List Char) (h1 : ds ≠ [])
    (h2 : ∀ c ∈ ds, '0' ≤ c ∧ c ≤ '9')
    (h3 : (decimal_value ds : ℤ) ≤ i64_max) :
    delay_chars_to_duration ('+' :: ds) = some ((decimal_value ds : ℤ)) := by
  simp [delay_chars_to_duration, i64_parse_all_digits ds h1 h2 h3]

/-- Delay parsing of a minus sign followed by in-range digits yields the
negated minute count. -/
lemma delay_chars_minus (ds : List Char) (h1 : ds ≠ [])
    (h2 : ∀ c ∈ ds, '0' ≤ c ∧ c ≤ '9')
    (h3 : (decimal_value ds : ℤ) ≤ i64_max) :
    delay_chars_to_duration ('-' :: ds) = some (-(decimal_value ds : ℤ)) := by
  have hne : ¬('-' : Char) = '+' := by decide
  have hlt : ('-' : Char).toNat < 128 := by decide
  simp [delay_chars_to_duration, if_neg hne, if_pos hlt,
    i64_parse_all_digits ds h1 h2 h3]

/-- The scan of `Trip::get_stop` returns `none` exactly when no stop in the
list carries the queried station id. -/
lemma get_stop_loop_none_iff (l : List Stop) (eva : String) :
    get_stop_loop l eva = none ↔ ∀ s ∈ l, s.station.evaNr ≠ eva := by
  induction l with
  | nil => simp [get_stop_loop]
  | cons a rest ih =>
    by_cases h : a.station.evaNr = eva
    · simp [get_stop_loop, h]
    · simp [get_stop_loop, h, ih]

/-- The scan of `Trip::get_stop` returns a stop that carries the queried id
and sits at the first matching index. -/
lemma get_stop_loop_some (l : List Stop) (eva : String) (s : Stop)
    (h : get_stop_loop l eva = some s) :
    s.station.evaNr = eva ∧
      ∃ i : Fin l.length, l.get i = s ∧
        ∀ j : Fin l.length, (j : ℕ) < (i : ℕ) → (l.get j).station.evaNr ≠ eva := by
  induction l with
  | nil => simp [get_stop_loop] at h
  | cons a rest ih =>
    by_cases ha : a.station.evaNr = eva
    · rw [get_stop_loop, if_pos ha] at h
      obtain rfl : a = s := by injection h
      refine ⟨ha, ⟨0, by simp⟩, rfl, ?_⟩
      intro j hj
      have hj0 : (j : ℕ) < 0 := hj
      exact absurd hj0 (by omega)
    · rw [get_stop_loop, if_neg ha] at h
      obtain ⟨hs, i, hget, hfirst⟩ := ih h
      refine ⟨hs, ⟨i.val + 1, by simp⟩, by simpa using hget, ?_⟩
      intro j hj
      rcases j with ⟨k, hk⟩
      cases k with
      | zero => simpa using ha
      | succ k2 =>
        have hki : k2 < i.val := by simpa using hj
        have := hfirst ⟨k2, by omega⟩ hki
        simpa using this

/-- The two revisions' scan loops agree along the stop conversion. -/
lemma get_stop_loop_map (l : List Stop) (eva : String) :
    TripInfoRs.get_stop_loop (l.map stop_to_rs) eva = (get_stop_loop l eva).map stop_to_rs := by
  induction l with
  | nil => rfl
  | cons a rest ih =>
    by_cases h : a.station.evaNr = eva
    · simp [TripInfoRs.get_stop_loop, get_stop_loop, stop_to_rs, station_info_to_rs, h]
    · simp [TripInfoRs.get_stop_loop, get_stop_loop, stop_to_rs, station_info_to_rs, h, ih]

/-- Rust's truncating division, on a nonnegative divisor, is the sign of the
dividend times the quotient of the magnitudes. -/
lemma int_tdiv_sign_natAbs (a : Int) (b : Nat) :
    Int.tdiv a (b : Int) = a.sign * ((a.natAbs / b : ℕ) : ℤ) := by
  cases a with
  | ofNat m =>
    cases m with
    | zero => simp [Int.tdiv]
    | succ k =>
      simp [Int.tdiv, Int.sign]
      rw [abs_of_nonneg (by positivity)]
  | negSucc m => simp [Int.tdiv, Int.sign]

/-- Rust's truncating remainder, on a nonnegative divisor, is the sign of the
dividend times the remainder of the magnitudes. -/
lemma int_tmod_sign_natAbs (a : Int) (b : Nat) :
    Int.tmod a (b : Int) = a.sign * ((a.natAbs % b : ℕ) : ℤ) := by
  cases a with
  | ofNat m =>
    cases m with
    | zero => simp [Int.tmod]
    | succ k =>
      simp [Int.tmod, Int.sign]
      rw [abs_of_nonneg (by positivity)]
  | negSucc m => simp [Int.tmod, Int.sign]

/-! ### Claim theorems -/

/-- C1: behavior of `delay_string_to_duration` at non-conforming inputs.
The claim states that every non-empty delay string that does not match the
sign-then-digits pattern surfaces a parse error and no value is misreported.
The code instead strips the first character of ANY non-plus-prefixed string
and negates the parse of the remainder, so it misreports such strings:
`"52"` yields -2 minutes, `"++5"` and `"--5"` yield +5 minutes, while `"5"`
and `"abc"` panic inside `unwrap` (modelled as `none`) instead of returning
an error value to the caller. -/
theorem C1_delay_misparse_code_behavior :
    TimeInfo.delay_string_to_duration "52" = some (-2)
  ∧ TimeInfo.delay_string_to_duration "++5" = some 5
  ∧ TimeInfo.delay_string_to_duration "--5" = some 5
  ∧ TimeInfo.delay_string_to_duration "5" = none
  ∧ TimeInfo.delay_string_to_duration "abc" = none := by
  refine ⟨?_, ?_, ?_, ?_, ?_⟩ <;> decide

/-- C2 counterexample: the claim quantifies over EVERY string of a sign
followed by digits, but a digit string whose value exceeds the `i64` range
makes `parse::<i64>().unwrap()` panic instead of returning that many
minutes: at `"+9223372036854775808"` (magnitude `2 ^ 63`) the code panics
(`none`), not `some 9223372036854775808`. -/
theorem C2_counterexample :
    TimeInfo.delay_string_to_duration "+9223372036854775808" = none := by decide

/-- C2 (amended with the `i64` range bound): for a `+` sign followed by
digits whose value is at most `2 ^ 63 - 1`, parsing strips the sign and
returns that many minutes; for a `-` sign it returns the negated magnitude;
the empty string yields zero; and the spec's concrete examples hold:
`"+5"` is 5 minutes, `"-12"` is -12 minutes, `"+0"`, `"-0"` and `""` are 0. -/
theorem C2_delay_parse_signed :
    (∀ ds : List Char, ds ≠ [] → (∀ c ∈ ds, '0' ≤ c ∧ c ≤ '9') →
        (decimal_value ds : ℤ) ≤ i64_max →
        TimeInfo.delay_string_to_duration (String.mk ('+' :: ds)) = some ((decimal_value ds : ℤ))
      ∧ TimeInfo.delay_string_to_duration (String.mk ('-' :: ds)) = some (-(decimal_value ds : ℤ)))
  ∧ TimeInfo.delay_string_to_duration "" = some 0
  ∧ TimeInfo.delay_string_to_duration "+5" = some 5
  ∧ TimeInfo.delay_string_to_duration "-12" = some (-12)
  ∧ TimeInfo.delay_string_to_duration "+0" = some 0
  ∧ TimeInfo.delay_string_to_duration "-0" = some 0 := by
  refine ⟨?_, by decide, by decide, by decide, by decide, by decide⟩
  intro ds h1 h2 h3
  exact ⟨delay_chars_plus ds h1 h2 h3, delay_chars_minus ds h1 h2 h3⟩

/-- Witness for C2: the general part applied at the digit list of `"+5"`. -/
theorem C2_delay_parse_signed_witness :
    TimeInfo.delay_string_to_duration (String.mk ['+', '5']) = some ((decimal_value ['5'] : ℤ)) :=
  (C2_delay_parse_signed.1 ['5'] (by decide) (by decide) (by decide)).1

/-- C10: on every delay string that is empty or a single sign followed by
digits whose magnitude is within the `i64` range, delay parsing — and hence
`arrival_delay` and `departure_delay` — reaches none of its panicking
branches and produces a value. -/
theorem C10_delay_parse_no_panic : ∀ s : String,
    (s.data = [] ∨ ∃ c ds, s.data = c :: ds ∧ (c = '+' ∨ c = '-') ∧ ds ≠ [] ∧
        (∀ d ∈ ds, '0' ≤ d ∧ d ≤ '9') ∧ (decimal_value ds : ℤ) ≤ i64_max) →
      (TimeInfo.delay_string_to_duration s).isSome = true
    ∧ ∀ t : TimeInfo,
        (t.arrivalDelay = s → t.arrival_delay.isSome = true)
      ∧ (t.departureDelay = s → t.departure_delay.isSome = true) := by
  intro s hs
  have key : (TimeInfo.delay_string_to_duration s).isSome = true := by
    unfold TimeInfo.delay_string_to_duration
    rcases hs with h | ⟨c, ds, hdata, hsign, h1, h2, h3⟩
    · rw [h]; rfl
    · rw [hdata]
      rcases hsign with rfl | rfl
      · rw [delay_chars_plus ds h1 h2 h3]; rfl
      · rw [delay_chars_minus ds h1 h2 h3]; rfl
  refine ⟨key, ?_⟩
  intro t
  constructor
  · intro h; unfold TimeInfo.arrival_delay; rw [h]; exact key
  · intro h; unfold TimeInfo.departure_delay; rw [h]; exact key

/-- Witness for C10: the conforming string `"+5"` parses without panic. -/
theorem C10_delay_parse_no_panic_witness :
    (TimeInfo.delay_string_to_duration "+5").isSome = true :=
  (C10_delay_parse_no_panic "+5"
    (Or.inr ⟨'+', ['5'], by decide, Or.inl rfl, by decide, by decide, by decide⟩)).1

/-- C3: `get_stop` scans `stops` in order: it returns `none` exactly when no
stop carries the queried id (in particular on an empty sequence), and any
returned stop carries the queried id and sits at an index before which no
stop matches — so with duplicate ids the smallest matching index wins. -/
theorem C3_get_stop_first_match : ∀ (t : Trip) (eva : String),
    (t.stops = [] → t.get_stop eva = none)
  ∧ (t.get_stop eva = none ↔ ∀ s ∈ t.stops, s.station.evaNr ≠ eva)
  ∧ ∀ s : Stop, t.get_stop eva = some s →
      s.station.evaNr = eva ∧
        ∃ i : Fin t.stops.length, t.stops.get i = s ∧
          ∀ j : Fin t.stops.length, (j : ℕ) < (i : ℕ) → (t.stops.get j).station.evaNr ≠ eva := by
  intro t eva
  refine ⟨?_, get_stop_loop_none_iff t.stops eva, fun s h => get_stop_loop_some t.stops eva s h⟩
  intro h
  unfold Trip.get_stop
  rw [h]
  rfl

/-- Witness for C3: no stop of the scenario trip carries id `"S9"`, so the
lookup misses. -/
theorem C3_get_stop_first_match_witness :
    trip_scenario.get_stop "S9" = none :=
  (C3_get_stop_first_match trip_scenario "S9").2.1.mpr (by decide)

/-- C4: when `next_stop` resolves to a stop, `distance_to_next_stop` is that
stop's distance-from-previous in kilometers minus `distance_to_previous_stop`;
when it does not resolve the result is `none`. In the spec's scenario
(stops `S1` at 0 m and `S2` at 5000 m, next `S2`, last `S1`, 2000 m since the
last stop) the three distance queries give 2.0, 5.0 and 3.0 km. -/
theorem C4_distance_to_next_stop :
    (∀ t : Trip,
        (∀ s : Stop, t.next_stop = some s →
            t.distance_to_next_stop
              = some (Trip.distance_to_km s.info.distance - t.distance_to_previous_stop))
      ∧ (t.next_stop = none → t.distance_to_next_stop = none))
  ∧ trip_scenario.next_stop = some stop_s2
  ∧ trip_scenario.previous_stop = some stop_s1
  ∧ trip_scenario.distance_to_previous_stop = 2
  ∧ trip_scenario.distance_between_adjacent_stops = some 5
  ∧ trip_scenario.distance_to_next_stop = some 3 := by
  refine ⟨?_, rfl, rfl, ?_, ?_, ?_⟩
  · intro t
    constructor
    · intro s h
      unfold Trip.distance_to_next_stop
      rw [h]
    · intro h
      unfold Trip.distance_to_next_stop
      rw [h]
  · norm_num [trip_scenario, Trip.distance_to_previous_stop, Trip.distance_to_km]
  · show some (Trip.distance_to_km stop_s2.info.distance) = some 5
    norm_num [Trip.distance_to_km, stop_s2]
  · show some (Trip.distance_to_km stop_s2.info.distance - trip_scenario.distance_to_previous_stop)
      = some 3
    norm_num [Trip.distance_to_km, Trip.distance_to_previous_stop, stop_s2, trip_scenario]

/-- Witness for C4: the resolving branch applied to the scenario trip. -/
theorem C4_distance_to_next_stop_witness :
    trip_scenario.distance_to_next_stop
      = some (Trip.distance_to_km stop_s2.info.distance - trip_scenario.distance_to_previous_stop) :=
  (C4_distance_to_next_stop.1 trip_scenario).1 stop_s2 rfl

/-- C5: the navigation queries are exactly station-id lookup and positional
access: `next_stop`, `previous_stop` and `destination` are `get_stop` of the
corresponding vicinity id, `origin` is the first element of `stops` (or
`none` when empty), and a vicinity id carried by no stop makes the lookup
return `none`. -/
theorem C5_navigation_queries : ∀ t : Trip,
    t.next_stop = t.get_stop t.stopInfo.actualNext
  ∧ t.previous_stop = t.get_stop t.stopInfo.actualLast
  ∧ t.destination = t.get_stop t.stopInfo.finalStationEvaNr
  ∧ (t.stops = [] → t.origin = none)
  ∧ (∀ (s : Stop) (rest : List Stop), t.stops = s :: rest → t.origin = some s)
  ∧ ∀ eva : String, (∀ s ∈ t.stops, s.station.evaNr ≠ eva) → t.get_stop eva = none := by
  intro t
  refine ⟨rfl, rfl, rfl, ?_, ?_, ?_⟩
  · intro h
    simp [Trip.origin, h]
  · intro s rest h
    simp [Trip.origin, h]
  · intro eva h
    exact (get_stop_loop_none_iff t.stops eva).mpr h

/-- Witness for C5: the empty trip has no origin; the scenario trip's origin
is its first stop. -/
theorem C5_navigation_queries_witness :
    trip_empty.origin = none ∧ trip_scenario.origin = some stop_s1 :=
  ⟨(C5_navigation_queries trip_empty).2.2.2.1 rfl,
   (C5_navigation_queries trip_scenario).2.2.2.2.1 stop_s1 [stop_s2] rfl⟩

/-- C6: `distance_to_km` is exact division of the meter count by 1000 —
with the spec's examples 1000 ↦ 1.0, 0 ↦ 0.0, -500 ↦ -0.5 — and the
distance queries surface their stored meter fields through it. -/
theorem C6_distance_to_km_exact :
    (∀ m : Int, Trip.distance_to_km m = (m : ℚ) / 1000)
  ∧ Trip.distance_to_km 1000 = 1
  ∧ Trip.distance_to_km 0 = 0
  ∧ Trip.distance_to_km (-500) = -(1 / 2 : ℚ)
  ∧ ∀ t : Trip,
      t.distance_to_previous_stop = Trip.distance_to_km t.distanceFromLastStop
    ∧ t.total_distance = Trip.distance_to_km t.totalDistance := by
  refine ⟨fun m => rfl, ?_, ?_, ?_, fun t => ⟨rfl, rfl⟩⟩
  · norm_num [Trip.distance_to_km]
  · norm_num [Trip.distance_to_km]
  · norm_num [Trip.distance_to_km]

/-- C7: `server_time` performs the same conversion as `timestamp_to_tm`, and
that conversion puts `serverTime / 1000` — integer division truncating
toward zero, i.e. the sign of the input times the quotient of the
magnitudes — into the seconds and the remainder times 1000000 into the
nanoseconds, losing nothing: 1000 times the seconds plus the nanoseconds
back in milliseconds is the input. -/
theorem C7_time_conversion : ∀ s : Status,
    s.server_time = TimeInfo.timestamp_to_tm s.serverTime
  ∧ ∀ ts : Int,
      (TimeInfo.timestamp_to_tm ts).sec = ts.sign * ((ts.natAbs / 1000 : ℕ) : ℤ)
    ∧ (TimeInfo.timestamp_to_tm ts).nsec = ts.sign * ((ts.natAbs % 1000 : ℕ) : ℤ) * 1000000
    ∧ 1000 * (TimeInfo.timestamp_to_tm ts).sec + (TimeInfo.timestamp_to_tm ts).nsec / 1000000 = ts := by
  intro s
  refine ⟨rfl, ?_⟩
  intro ts
  refine ⟨?_, ?_, ?_⟩
  · show Int.tdiv ts 1000 = _
    simpa using int_tdiv_sign_natAbs ts 1000
  · have h : Int.tmod ts 1000 = ts.sign * ((ts.natAbs % 1000 : ℕ) : ℤ) := by
      simpa using int_tmod_sign_natAbs ts 1000
    show Int.tmod ts 1000 * 1000000 = _
    rw [h]
  · show 1000 * Int.tdiv ts 1000 + Int.tmod ts 1000 * 1000000 / 1000000 = ts
    have h1 : Int.tmod ts 1000 * 1000000 / 1000000 = Int.tmod ts 1000 := by omega
    rw [h1]
    exact Int.tdiv_add_tmod ts 1000

/-- C8: the display routine always produces a rendering; the time suffix is
appended exactly when formatting the timestamp succeeded, and on failure the
remainder of the rendering is unchanged. -/
theorem C8_display_omits_time_on_failure : ∀ (s : Status) (r : Option String),
    (∀ dt : String, r = some dt → Status.fmt s r = Status.fmt s none ++ ("; Time: " ++ dt))
  ∧ (r = none → Status.fmt s r = Status.fmt s none) := by
  intro s r
  constructor
  · intro dt h
    subst h
    simp [Status.fmt, String.append_assoc]
  · intro h
    subst h
    rfl

/-- Witness for C8: the example status rendered with a formatted time. -/
theorem C8_display_omits_time_on_failure_witness :
    Status.fmt status_example (some "12:00:00")
      = Status.fmt status_example none ++ ("; Time: " ++ "12:00:00") :=
  (C8_display_omits_time_on_failure status_example (some "12:00:00")).1 "12:00:00" rfl

/-- C9: the flat-file revision of the trip queries agrees with the modular
revision on structurally equal inputs: along the field-by-field conversion,
`get_stop`, `next_stop`, `previous_stop`, the three distance queries and
`train_identifier` return equal results. -/
theorem C9_revisions_equivalent : ∀ (t : Trip) (eva : String),
    TripInfoRs.Trip.get_stop (trip_to_rs t) eva = (t.get_stop eva).map stop_to_rs
  ∧ TripInfoRs.Trip.next_stop (trip_to_rs t) = (t.next_stop).map stop_to_rs
  ∧ TripInfoRs.Trip.previous_stop (trip_to_rs t) = (t.previous_stop).map stop_to_rs
  ∧ TripInfoRs.Trip.distance_to_previous_stop (trip_to_rs t) = t.distance_to_previous_stop
  ∧ TripInfoRs.Trip.distance_to_next_stop (trip_to_rs t) = t.distance_to_next_stop
  ∧ TripInfoRs.Trip.distance_between_adjacent_stops (trip_to_rs t)
      = t.distance_between_adjacent_stops
  ∧ TripInfoRs.Trip.train_identifier (trip_to_rs t) = t.train_identifier
  ∧ ∀ m : Int, TripInfoRs.Trip.distance_to_km m = Trip.distance_to_km m := by
  intro t eva
  have hget : ∀ e : String,
      TripInfoRs.Trip.get_stop (trip_to_rs t) e = (t.get_stop e).map stop_to_rs := by
    intro e
    exact get_stop_loop_map t.stops e
  have hnext : TripInfoRs.Trip.next_stop (trip_to_rs t) = (t.next_stop).map stop_to_rs :=
    hget t.stopInfo.actualNext
  have hdn : TripInfoRs.Trip.distance_to_next_stop (trip_to_rs t) = t.distance_to_next_stop := by
    unfold TripInfoRs.Trip.distance_to_next_stop Trip.distance_to_next_stop
    rw [hnext]
    cases t.next_stop with
    | none => rfl
    | some s => rfl
  have hda : TripInfoRs.Trip.distance_between_adjacent_stops (trip_to_rs t)
      = t.distance_between_adjacent_stops := by
    unfold TripInfoRs.Trip.distance_between_adjacent_stops Trip.distance_between_adjacent_stops
    rw [hnext]
    cases t.next_stop with
    | none => rfl
    | some s => rfl
  exact ⟨hget eva, hnext, hget t.stopInfo.actualLast, rfl, hdn, hda, rfl, fun m => rfl⟩

end DbTrainInfo
